import Mathlib

/-!
Verification of the NoSBMM lobby simulator (src/NoSBMM.py).

The Python source is shallowly embedded over exact rationals (`ℚ`): Python
floats become rationals, numpy arrays become `List ℚ`, and the two global
pseudo-random generators (`random` and `numpy.random`) become an explicit
`RNGState` threaded through the computation.  Library routines that are not
part of the repository (the generators themselves and
`np.random.multinomial`) are modelled from the spec, as marked in their doc
comments; everything else is translated line by line from `src/NoSBMM.py`.
-/

namespace NoSBMM

/-- The values of the `skill_brackets` dict (src lines 8–15), in order; this
is `bracket_default_props` (src line 17). -/
def bracket_default_props : List ℚ := [1/10, 1/10, 1/2, 19/100, 9/1000, 1/1000]

/-- `rep_kds` (src line 18): the representative K/D of each bracket. -/
def rep_kds : List ℚ := [1/4, 9/20, 3/4, 3/2, 5/2, 4]

/-- `NUM_LOBBY` (src line 19). -/
def NUM_LOBBY : ℕ := 150

/-- Round-half-to-even to the nearest integer, the rounding used by Python's
built-in `round`. -/
def roundHalfEven (x : ℚ) : ℤ :=
  let f := ⌊x⌋
  let r := x - f
  if r < 1/2 then f
  else if 1/2 < r then f + 1
  else if f % 2 = 0 then f else f + 1

/-- Python `round(x, 1)`: round to one decimal place. -/
def round1 (x : ℚ) : ℚ := (roundHalfEven (10 * x) : ℚ) / 10

/-- `np.clip(x, lo, hi)` for scalars. -/
def clip (x lo hi : ℚ) : ℚ := min hi (max lo x)

/-- `kd_to_sweatyness_combo` (src lines 21–37): blend median and top mean
into a composite, map it through the five-segment piecewise-linear curve,
then clamp to [1, 10] after rounding to one decimal.  Returns
`(sweat, composite)`. -/
def kd_to_sweatyness_combo (median top_mean : ℚ) : ℚ × ℚ :=
  let composite := 33/100 * median + 67/100 * top_mean
  let sweat :=
    if composite < 8/10 then 1 + (composite - 1/10) / (7/10) * 2
    else if composite < 11/10 then 3 + (composite - 8/10) / (3/10) * 3
    else if composite < 15/10 then 6 + (composite - 11/10) / (4/10) * 2
    else if composite < 2 then 8 + (composite - 15/10) / (5/10) * 2
    else 10
  (clip (round1 sweat) 1 10, composite)

/-- `sweat_rating_emoji` (src lines 39–47). -/
def sweat_rating_emoji (sweat : ℚ) : String :=
  if sweat < 4 then "😎 Chill"
  else if sweat < 7 then "🙂 Normal"
  else if sweat < 9 then "😰 Sweaty"
  else "🔥 Ultra Sweaty!"

/-- `np.median`: the middle element of the sorted data for odd length, the
average of the two middle elements for even length. -/
def npMedian (l : List ℚ) : ℚ :=
  let s := List.insertionSort (· ≤ ·) l
  let n := l.length
  if n % 2 = 1 then s.getD (n / 2) 0
  else (s.getD (n / 2 - 1) 0 + s.getD (n / 2) 0) / 2

/-- `np.mean`: arithmetic mean. -/
def npMean (l : List ℚ) : ℚ := l.sum / l.length

/-- `get_sweat_score` (src lines 49–57).  Returns
`(sweat, composite, median, top_mean)`; the empty input short-circuits to
`(1, 0, 0, 0)`.  `np.sort(kds)[-top_n:]` is the last `top_n` elements of the
ascending sort, i.e. `drop (length - top_n)`. -/
def get_sweat_score (all_kds : List ℚ) (top_n : ℕ) : ℚ × ℚ × ℚ × ℚ :=
  if all_kds.length = 0 then (1, 0, 0, 0)
  else
    let median := npMedian all_kds
    let topk :=
      if top_n ≤ all_kds.length then
        (List.insertionSort (· ≤ ·) all_kds).drop (all_kds.length - top_n)
      else all_kds
    let top_mean := npMean topk
    let sc := kd_to_sweatyness_combo median top_mean
    (sc.1, sc.2, median, top_mean)

/-- `bracket_default_props * keep_mask` (src lines 72–73): element-wise
product of the default proportions with the boolean mask
`[k >= kd_churn_cutoff for k in rep_kds]`. -/
def masked_props (kd_churn_cutoff : ℚ) : List ℚ :=
  List.zipWith (fun p k => if kd_churn_cutoff ≤ k then p else 0)
    bracket_default_props rep_kds

/-- The in-place updates `prop_used[0] *= (1 - churn_level)` and
`prop_used[1] *= (1 - churn_level)` (src lines 84–85). -/
def scaleFirstTwo (churn_level : ℚ) : List ℚ → List ℚ
  | p0 :: p1 :: rest => p0 * (1 - churn_level) :: p1 * (1 - churn_level) :: rest
  | l => l

/-- The churn logic of `simulate_lobby` (src lines 70–87): the vector
`prop_used` handed to the multinomial sampler.  In advanced mode, brackets
below the cutoff are zeroed and the rest renormalized, with the all-zero
failsafe putting the whole mass on the last bracket
(`np.zeros_like` then `prop_used[-1] = 1.0`); otherwise the two lowest
brackets are scaled by `1 - churn_level` and the vector renormalized. -/
def prop_used (churn_level : ℚ) (advanced_churn : Bool) (kd_churn_cutoff : ℚ) :
    List ℚ :=
  if advanced_churn = true then
    let masked := masked_props kd_churn_cutoff
    let total_prop := masked.sum
    if total_prop = 0 then [0, 0, 0, 0, 0, 1]
    else masked.map (fun p => p / total_prop)
  else
    let l := scaleFirstTwo churn_level bracket_default_props
    l.map (fun p => p / l.sum)

/-- The two process-wide generator states: `py` for the `random` module,
`np` for `numpy.random`. -/
structure RNGState where
  py : ℕ
  np : ℕ
deriving DecidableEq

/-- Modelled from the spec: the library pseudo-random generators themselves
(`random` and `numpy.random`) are not in src/; the spec only requires that a
fixed seed makes every draw a deterministic, reproducible function of the
seed.  A linear congruential step stands in for the state transition. -/
def lcg (s : ℕ) : ℕ := (s * 1103515245 + 12345) % 2 ^ 31

/-- Modelled from the spec: a bounded deterministic value in [-1, 1] read off
the generator state, standing in for one standardized normal variate. -/
def stateNoise (s : ℕ) : ℚ := ((s % 201 : ℕ) : ℚ) / 100 - 1

/-- Modelled from the spec: one draw of `np.random.normal(loc, scale)` —
"drawn from a normal distribution centered on the bracket's representative
K/D (fixed spread)" — as the center plus scaled deterministic noise. -/
def normalDraw (loc scale : ℚ) (s : ℕ) : ℚ × ℕ := (loc + scale * stateNoise s, lcg s)

/-- `np.random.normal(loc, scale, size=count)`: `count` draws, threading the
generator state. -/
def normalSamples (loc scale : ℚ) : ℕ → ℕ → List ℚ × ℕ
  | 0, s => ([], s)
  | Nat.succ k, s =>
    let d := normalDraw loc scale s
    let rest := normalSamples loc scale k d.2
    (d.1 :: rest.1, rest.2)

/-- Modelled from the spec: one draw of `random.uniform(a, b)` — "drawn
uniformly from a fixed low range" — as a deterministic point of [a, b] read
off the generator state. -/
def uniformDraw (a b : ℚ) (s : ℕ) : ℚ × ℕ :=
  (a + (b - a) * ((s % 1001 : ℕ) : ℚ) / 1000, lcg s)

/-- `[random.uniform(a, b) for _ in range(n)]`: `n` draws, threading the
generator state. -/
def uniformSamples (a b : ℚ) : ℕ → ℕ → List ℚ × ℕ
  | 0, s => ([], s)
  | Nat.succ k, s =>
    let d := uniformDraw a b s
    let rest := uniformSamples a b k d.2
    (d.1 :: rest.1, rest.2)

/-- Modelled from the spec: `np.random.multinomial(n, p)` is library code not
in src/; the spec guarantees only that the draw "guarantees counts are
non-negative integers summing exactly to human_count".  This deterministic
model allocates at most the floor of each bucket's share of what remains and
hands everything left to the last bucket — one outcome in the support of the
multinomial distribution. -/
def multinomialDraw : ℕ → List ℚ → List ℕ
  | _, [] => []
  | n, [_] => [n]
  | n, q :: rest =>
    let a := min n (⌊(n : ℚ) * q⌋).toNat
    a :: multinomialDraw (n - a) rest

/-- The K/D generation loop (src lines 93–96): for each
`(count, med_kd)` pair draw `count` normal samples with scale 0.05 and clip
them below at 0.05 (`np.clip(kd_samples, 0.05, None)`). -/
def genHumanKds : List (ℕ × ℚ) → ℕ → List ℚ × ℕ
  | [], s => ([], s)
  | cm :: rest, s =>
    let drawn := normalSamples cm.2 (1/20) cm.1 s
    let clipped := drawn.1.map (fun x => max (1/20) x)
    let tail := genHumanKds rest drawn.2
    (clipped ++ tail.1, tail.2)

/-- The distinguishing content of the `churn_desc` f-string (src lines 81
and 87): which branch produced it and the number it interpolates. -/
inductive ChurnDesc
  | advanced (cutoff : ℚ)
  | proportional (level : ℚ)
deriving DecidableEq

/-- Everything `simulate_lobby` computes and then plots or prints: the lobby
composition, the K/D samples, the sweat-score breakdown, and the summary
statistics (src lines 67–135). -/
structure LobbyResult where
  num_humans : ℕ
  props : List ℚ
  humans_per_bracket : List ℕ
  human_kds : List ℚ
  bot_kds : List ℚ
  sweat : ℚ
  composite : ℚ
  median_all_kd : ℚ
  top10_all_kd : ℚ
  sweat_visual : String
  churn_desc : ChurnDesc
  expected_counts : List ℚ
  pct : List ℚ
deriving DecidableEq

/-- `simulate_lobby` (src lines 59–135).  It receives the incoming global
generator state and immediately reseeds both generators
(`random.seed(42)`, `np.random.seed(42)`), then computes `prop_used`, draws
the multinomial composition, the human and bot K/Ds, scores the lobby and
assembles the summary data.  Returns the result together with the final
generator state. -/
def simulate_lobby (globalState : RNGState) (num_bots : ℕ) (churn_level : ℚ)
    (advanced_churn : Bool) (kd_churn_cutoff : ℚ) : LobbyResult × RNGState :=
  let seeded : RNGState := { py := 42, np := 42 }
  let num_humans := NUM_LOBBY - num_bots
  let props := prop_used churn_level advanced_churn kd_churn_cutoff
  let churn_desc := if advanced_churn = true then ChurnDesc.advanced kd_churn_cutoff
                    else ChurnDesc.proportional churn_level
  let npAfterMultinomial := lcg seeded.np
  let humans_per_bracket := multinomialDraw num_humans props
  let humanDraw := genHumanKds (humans_per_bracket.zip rep_kds) npAfterMultinomial
  let human_kds := humanDraw.1
  let botDraw := uniformSamples (1/10) (3/5) num_bots seeded.py
  let bot_kds := botDraw.1
  let all_kds := human_kds ++ bot_kds
  let score := get_sweat_score all_kds 10
  let sweat := score.1
  let composite := score.2.1
  let median_all_kd := score.2.2.1
  let top10_all_kd := score.2.2.2
  let sweat_visual := sweat_rating_emoji sweat
  let expected_counts := props.map (fun p => (num_humans : ℚ) * p)
  let pct :=
    if 0 < num_humans then
      humans_per_bracket.map (fun c => (c : ℚ) / (num_humans : ℚ) * 100)
    else List.replicate humans_per_bracket.length 0
  ({ num_humans := num_humans, props := props,
     humans_per_bracket := humans_per_bracket, human_kds := human_kds,
     bot_kds := bot_kds, sweat := sweat, composite := composite,
     median_all_kd := median_all_kd, top10_all_kd := top10_all_kd,
     sweat_visual := sweat_visual, churn_desc := churn_desc,
     expected_counts := expected_counts, pct := pct },
   { py := botDraw.2, np := humanDraw.2 })

/-! ### Spec-side definitions

The following definitions transcribe the spec's own words for the sweat
scorer ("Compute median of all K/Ds", "Compute mean of the top-N (N=10, or
all if fewer) K/Ds", "Composite = weighted blend (fixed weights 0.33/0.67)
of median and top-mean", "Map composite to a 1–10 score via a 5-segment
piecewise-linear function with fixed breakpoints (0.8, 1.1, 1.5, 2.0)
...; clamp and round to 1 decimal").  They are compared with the code-side
`get_sweat_score` in the refinement theorem for C7. -/

/-- Spec-side: the ten largest K/D values (all of them if fewer than ten),
read off the descending end of the sorted data. -/
def top10_spec (kds : List ℚ) : List ℚ :=
  if kds.length < 10 then kds
  else (List.insertionSort (· ≤ ·) kds).reverse.take 10

/-- Spec-side: mean of the top-10 K/Ds. -/
def top_mean_spec (kds : List ℚ) : ℚ := npMean (top10_spec kds)

/-- Spec-side: the weighted 0.33/0.67 blend of median and top-mean. -/
def composite_spec (kds : List ℚ) : ℚ :=
  33/100 * npMedian kds + 67/100 * top_mean_spec kds

/-- Spec-side: the 5-segment piecewise-linear map with breakpoints
0.8, 1.1, 1.5 and 2.0. -/
def piecewise_spec (composite : ℚ) : ℚ :=
  if composite < 8/10 then 1 + (composite - 1/10) / (7/10) * 2
  else if composite < 11/10 then 3 + (composite - 8/10) / (3/10) * 3
  else if composite < 15/10 then 6 + (composite - 11/10) / (4/10) * 2
  else if composite < 2 then 8 + (composite - 15/10) / (5/10) * 2
  else 10

/-- Spec-side: the final score, the piecewise value rounded to one decimal
and clamped to [1, 10]. -/
def sweat_spec (composite : ℚ) : ℚ := clip (round1 (piecewise_spec composite)) 1 10

/-! ### Helper lemmas -/

/-- Dividing every element by a constant divides the sum. -/
theorem sum_map_div (l : List ℚ) (t : ℚ) :
    (l.map (fun p => p / t)).sum = l.sum / t := by
  induction l with
  | nil => simp
  | cons a l ih => simp [ih, add_div]

/-- The mean is invariant under reversal. -/
theorem npMean_reverse (l : List ℚ) : npMean l.reverse = npMean l := by
  simp [npMean, List.sum_reverse]

/-- Taking `k` from the reversed list is reversing the last `k` elements. -/
theorem reverse_take_eq_drop_reverse (l : List ℚ) (k : ℕ) :
    l.reverse.take k = (l.drop (l.length - k)).reverse := by
  calc l.reverse.take k = ((l.reverse.take k).reverse).reverse := by
        rw [List.reverse_reverse]
    _ = (l.rtake k).reverse := by rw [List.rtake_eq_reverse_take_reverse]
    _ = (l.drop (l.length - k)).reverse := rfl

/-- The modelled multinomial draw distributes the whole total: its counts
sum to `n` whenever there is at least one bucket. -/
theorem multinomialDraw_sum :
    ∀ (p : List ℚ) (n : ℕ), p ≠ [] → (multinomialDraw n p).sum = n := by
  intro p
  induction p with
  | nil => intro n h; exact absurd rfl h
  | cons q rest ih =>
    intro n _
    cases rest with
    | nil => simp [multinomialDraw]
    | cons q2 r2 =>
      have hrec := ih (n - min n (⌊(n : ℚ) * q⌋).toNat) (by simp)
      simp only [multinomialDraw, List.sum_cons, hrec]
      omega

/-- The advanced-churn branch of `prop_used`, unfolded. -/
theorem prop_used_true (c cutoff : ℚ) :
    prop_used c true cutoff =
      if (masked_props cutoff).sum = 0 then [0, 0, 0, 0, 0, 1]
      else (masked_props cutoff).map (fun p => p / (masked_props cutoff).sum) := by
  simp [prop_used]

/-- The proportional-churn branch of `prop_used`, unfolded. -/
theorem prop_used_false (c cutoff : ℚ) :
    prop_used c false cutoff =
      (scaleFirstTwo c bracket_default_props).map
        (fun p => p / (scaleFirstTwo c bracket_default_props).sum) := by
  simp [prop_used]

/-- `prop_used` always has six entries, in particular it is nonempty. -/
theorem prop_used_ne_nil (c cutoff : ℚ) (adv : Bool) :
    prop_used c adv cutoff ≠ [] := by
  cases adv with
  | false =>
    rw [prop_used_false]
    simp [scaleFirstTwo, bracket_default_props]
  | true =>
    rw [prop_used_true]
    split
    · simp
    · simp [masked_props, bracket_default_props, rep_kds]

/-- `masked_props` written out entry by entry. -/
theorem masked_props_eq (cutoff : ℚ) :
    masked_props cutoff =
      [if cutoff ≤ 1/4 then (1/10 : ℚ) else 0,
       if cutoff ≤ 9/20 then (1/10 : ℚ) else 0,
       if cutoff ≤ 3/4 then (1/2 : ℚ) else 0,
       if cutoff ≤ 3/2 then (19/100 : ℚ) else 0,
       if cutoff ≤ 5/2 then (9/1000 : ℚ) else 0,
       if cutoff ≤ 4 then (1/1000 : ℚ) else 0] := by
  simp [masked_props, bracket_default_props, rep_kds]

/-- Every masked proportion is non-negative. -/
theorem masked_props_nonneg (cutoff : ℚ) :
    ∀ p ∈ masked_props cutoff, 0 ≤ p := by
  intro p hp
  rw [masked_props_eq] at hp
  simp only [List.mem_cons, List.not_mem_nil, or_false] at hp
  rcases hp with h | h | h | h | h | h <;> subst h <;> split <;> norm_num

/-- The clamped, rounded score lies in [1, 10] and is a multiple of one
tenth. -/
theorem clip_round1_bounds (x : ℚ) :
    1 ≤ clip (round1 x) 1 10 ∧ clip (round1 x) 1 10 ≤ 10 ∧
      ∃ z : ℤ, clip (round1 x) 1 10 = (z : ℚ) / 10 := by
  unfold clip round1
  set y := ((roundHalfEven (10 * x) : ℤ) : ℚ) / 10 with hy
  refine ⟨le_min (by norm_num) (le_max_left 1 y), min_le_left 10 _, ?_⟩
  rcases le_total y 1 with h1 | h1
  · refine ⟨10, ?_⟩
    rw [max_eq_left h1, min_eq_right (by norm_num)]
    norm_num
  · rw [max_eq_right h1]
    rcases le_total y 10 with h2 | h2
    · exact ⟨roundHalfEven (10 * x), by rw [min_eq_right h2]⟩
    · refine ⟨100, ?_⟩
      rw [min_eq_left h2]
      norm_num

/-! ### Claim theorems -/

/-- C1 counterexample: the six fixed default proportions
(0.10, 0.10, 0.50, 0.19, 0.009, 0.001) do not sum to 1.0. -/
theorem bracket_props_sum_ne_one : bracket_default_props.sum ≠ 1 := by
  norm_num [bracket_default_props]

/-- C1 (amended): the six fixed default proportions sum exactly to 0.9. -/
theorem bracket_props_sum_eq_nine_tenths : bracket_default_props.sum = 9/10 := by
  norm_num [bracket_default_props]

/-- C2 counterexample: with bot_count = 0, churn_level = 0 and advanced
churn off, the proportions `simulate_lobby` hands to the sampler are not the
unmodified defaults. -/
theorem default_inputs_props_ne_defaults :
    (simulate_lobby ⟨0, 0⟩ 0 0 false (17/20)).1.props ≠ bracket_default_props := by
  show prop_used 0 false (17/20) ≠ bracket_default_props
  rw [prop_used_false]
  norm_num [scaleFirstTwo, bracket_default_props]

/-- C2 (amended): with bot_count = 0 and churn_level = 0 and advanced churn
off, the proportions used for sampling are the defaults renormalized by
their sum 0.9 — (1/9, 1/9, 5/9, 19/90, 1/100, 1/900) — and the reported
expected counts are 150 times these. -/
theorem default_inputs_props_renormalized (s : RNGState) (cutoff : ℚ) :
    (simulate_lobby s 0 0 false cutoff).1.props =
      [1/9, 1/9, 5/9, 19/90, 1/100, 1/900] ∧
    (simulate_lobby s 0 0 false cutoff).1.expected_counts =
      [50/3, 50/3, 250/3, 95/3, 3/2, 1/6] := by
  constructor
  · show prop_used 0 false cutoff = _
    rw [prop_used_false]
    norm_num [scaleFirstTwo, bracket_default_props]
  · show (prop_used 0 false cutoff).map _ = _
    rw [prop_used_false]
    norm_num [scaleFirstTwo, bracket_default_props, NUM_LOBBY]

/-- C5: the sweat scorer maps the empty K/D sequence to score 1 with
composite, median and top-mean all 0. -/
theorem empty_kds_score : get_sweat_score [] 10 = (1, 0, 0, 0) := rfl

/-- C9: `simulate_lobby` reseeds both generators on entry, so its output —
result and final generator state alike — does not depend on the incoming
global generator state: it is a pure function of its parameters. -/
theorem simulate_lobby_pure (s1 s2 : RNGState) (bots : ℕ) (c : ℚ)
    (adv : Bool) (cutoff : ℚ) :
    simulate_lobby s1 bots c adv cutoff = simulate_lobby s2 bots c adv cutoff := rfl

/-- C10: with advanced churn on, `simulate_lobby` never reads
`churn_level`: two invocations differing only in churn_level coincide in
every output field. -/
theorem advanced_ignores_churn_level (s : RNGState) (bots : ℕ) (c1 c2 : ℚ)
    (cutoff : ℚ) :
    simulate_lobby s bots c1 true cutoff = simulate_lobby s bots c2 true cutoff := rfl

/-- The scaled default proportions, written out entry by entry. -/
theorem scaleFirstTwo_defaults (c : ℚ) :
    scaleFirstTwo c bracket_default_props =
      [1/10 * (1 - c), 1/10 * (1 - c), 1/2, 19/100, 9/1000, 1/1000] := rfl

/-- C3: for every churn_level in [0, 1], whatever the churn mode and
cutoff, the six proportions handed to the sampler are non-negative and sum
exactly to 1. -/
theorem churn_props_nonneg_sum_one (c cutoff : ℚ) (adv : Bool)
    (h0 : 0 ≤ c) (h1 : c ≤ 1) :
    (∀ p ∈ prop_used c adv cutoff, 0 ≤ p) ∧ (prop_used c adv cutoff).sum = 1 := by
  cases adv with
  | false =>
    rw [prop_used_false]
    have hsum : (scaleFirstTwo c bracket_default_props).sum = 9/10 - c/5 := by
      rw [scaleFirstTwo_defaults]
      simp
      ring
    have hpos : (0 : ℚ) < 9/10 - c/5 := by linarith
    constructor
    · intro p hp
      rw [List.mem_map] at hp
      obtain ⟨q, hq, rfl⟩ := hp
      apply div_nonneg
      · rw [scaleFirstTwo_defaults] at hq
        fin_cases hq <;> linarith
      · rw [hsum]; linarith
    · rw [sum_map_div]
      exact div_self (by rw [hsum]; linarith)
  | true =>
    rw [prop_used_true]
    by_cases ht : (masked_props cutoff).sum = 0
    · rw [if_pos ht]
      constructor
      · intro p hp
        simp only [List.mem_cons, List.not_mem_nil, or_false] at hp
        rcases hp with h | h | h | h | h | h <;> subst h <;> norm_num
      · norm_num
    · rw [if_neg ht]
      have hnn := masked_props_nonneg cutoff
      have hsum0 : 0 ≤ (masked_props cutoff).sum := List.sum_nonneg hnn
      constructor
      · intro p hp
        rw [List.mem_map] at hp
        obtain ⟨q, hq, rfl⟩ := hp
        exact div_nonneg (hnn q hq) hsum0
      · rw [sum_map_div]
        exact div_self ht

/-- C3 witness: the guarantee at churn_level 1/2, proportional mode. -/
theorem churn_props_nonneg_sum_one_witness :
    (0 : ℚ) ≤ 1/2 ∧ (1/2 : ℚ) ≤ 1 ∧
      ((∀ p ∈ prop_used (1/2) false (17/20), 0 ≤ p) ∧
        (prop_used (1/2) false (17/20)).sum = 1) :=
  ⟨by norm_num, by norm_num,
    churn_props_nonneg_sum_one (1/2) (17/20) false (by norm_num) (by norm_num)⟩

/-- C4: in threshold-churn mode, every bracket whose representative K/D is
strictly below the cutoff gets proportion 0 and the kept brackets are
renormalized by the surviving mass; when the cutoff clears even the top
representative K/D of 4, the entire mass goes to the single highest
bracket. -/
theorem advanced_churn_zero_and_fallback (c cutoff : ℚ) :
    (∀ i, i < 6 → (masked_props cutoff).sum ≠ 0 →
      rep_kds.getD i 0 < cutoff → (prop_used c true cutoff).getD i 0 = 0) ∧
    ((masked_props cutoff).sum ≠ 0 → ∀ i, i < 6 → cutoff ≤ rep_kds.getD i 0 →
      (prop_used c true cutoff).getD i 0 =
        bracket_default_props.getD i 0 / (masked_props cutoff).sum) ∧
    (4 < cutoff → prop_used c true cutoff = [0, 0, 0, 0, 0, 1]) := by
  refine ⟨?_, ?_, ?_⟩
  · intro i hi ht hlt
    rw [prop_used_true, if_neg ht, masked_props_eq]
    interval_cases i <;>
      (norm_num [rep_kds] at hlt
       simp only [List.map_cons, List.getD_cons_zero, List.getD_cons_succ]
       rw [if_neg (not_le.mpr hlt), zero_div])
  · intro ht i hi hge
    rw [prop_used_true, if_neg ht, masked_props_eq]
    interval_cases i <;>
      (norm_num [rep_kds] at hge
       simp only [List.map_cons, List.getD_cons_zero, List.getD_cons_succ]
       rw [if_pos hge]
       norm_num [bracket_default_props])
  · intro h4
    have e1 : ¬ cutoff ≤ (1/4 : ℚ) := by linarith
    have e2 : ¬ cutoff ≤ (9/20 : ℚ) := by linarith
    have e3 : ¬ cutoff ≤ (3/4 : ℚ) := by linarith
    have e4 : ¬ cutoff ≤ (3/2 : ℚ) := by linarith
    have e5 : ¬ cutoff ≤ (5/2 : ℚ) := by linarith
    have e6 : ¬ cutoff ≤ (4 : ℚ) := by linarith
    rw [prop_used_true, masked_props_eq,
        if_neg e1, if_neg e2, if_neg e3, if_neg e4, if_neg e5, if_neg e6]
    norm_num

/-- C4 witness: at cutoff 0.85 the below-cutoff bracket 0 vanishes and the
kept bracket 3 is renormalized; at cutoff 5 the whole mass lands on the top
bracket. -/
theorem advanced_churn_zero_and_fallback_witness :
    ((prop_used 0 true (17/20)).getD 0 0 = 0 ∧
     (prop_used 0 true (17/20)).getD 3 0 =
       bracket_default_props.getD 3 0 / (masked_props (17/20)).sum) ∧
    prop_used 0 true 5 = [0, 0, 0, 0, 0, 1] :=
  ⟨⟨(advanced_churn_zero_and_fallback 0 (17/20)).1 0 (by norm_num)
      (by rw [masked_props_eq]; norm_num) (by norm_num [rep_kds]),
    (advanced_churn_zero_and_fallback 0 (17/20)).2.1
      (by rw [masked_props_eq]; norm_num) 3 (by norm_num) (by norm_num [rep_kds])⟩,
   (advanced_churn_zero_and_fallback 0 5).2.2 (by norm_num)⟩

/-- C8: on valid slider inputs the human count is 150 minus the bot count,
and the sampled per-bracket counts (non-negative by their type `ℕ`) sum
exactly to the human count. -/
theorem lobby_counts_sum_to_humans (s : RNGState) (bots : ℕ) (c cutoff : ℚ)
    (adv : Bool) (h : bots ≤ 140) :
    (((simulate_lobby s bots c adv cutoff).1.num_humans : ℤ) = 150 - (bots : ℤ)) ∧
    ((simulate_lobby s bots c adv cutoff).1.humans_per_bracket).sum =
      (simulate_lobby s bots c adv cutoff).1.num_humans := by
  constructor
  · show ((NUM_LOBBY - bots : ℕ) : ℤ) = 150 - (bots : ℤ)
    rw [Nat.cast_sub (by simp [NUM_LOBBY]; omega)]
    norm_num [NUM_LOBBY]
  · show (multinomialDraw (NUM_LOBBY - bots) (prop_used c adv cutoff)).sum =
      NUM_LOBBY - bots
    exact multinomialDraw_sum _ _ (prop_used_ne_nil c cutoff adv)

/-- C8 witness: the invariant at 30 bots. -/
theorem lobby_counts_sum_to_humans_witness :
    (30 : ℕ) ≤ 140 ∧
      ((((simulate_lobby ⟨5, 7⟩ 30 0 false (17/20)).1.num_humans : ℤ) =
          150 - ((30 : ℕ) : ℤ)) ∧
       ((simulate_lobby ⟨5, 7⟩ 30 0 false (17/20)).1.humans_per_bracket).sum =
         (simulate_lobby ⟨5, 7⟩ 30 0 false (17/20)).1.num_humans) :=
  ⟨by norm_num, lobby_counts_sum_to_humans ⟨5, 7⟩ 30 0 (17/20) false (by norm_num)⟩

/-- The score component of `get_sweat_score` is either the hard-coded 1 of
the empty case or a clamped rounded value. -/
theorem get_sweat_score_fst (kds : List ℚ) (n : ℕ) :
    (get_sweat_score kds n).1 = 1 ∨
      ∃ x, (get_sweat_score kds n).1 = clip (round1 x) 1 10 := by
  unfold get_sweat_score
  split
  · left; rfl
  · right; exact ⟨_, rfl⟩

/-- C6: for every K/D sequence the sweat score lies in [1, 10] and is a
multiple of one tenth, and the qualitative label is the fixed-threshold
function of the score (below 4 Chill, below 7 Normal, below 9 Sweaty,
otherwise Ultra Sweaty). -/
theorem sweat_score_range_and_label (kds : List ℚ) :
    (1 ≤ (get_sweat_score kds 10).1 ∧ (get_sweat_score kds 10).1 ≤ 10) ∧
    (∃ z : ℤ, (get_sweat_score kds 10).1 = (z : ℚ) / 10) ∧
    sweat_rating_emoji ((get_sweat_score kds 10).1) =
      (if (get_sweat_score kds 10).1 < 4 then "😎 Chill"
       else if (get_sweat_score kds 10).1 < 7 then "🙂 Normal"
       else if (get_sweat_score kds 10).1 < 9 then "😰 Sweaty"
       else "🔥 Ultra Sweaty!") := by
  refine ⟨?_, ?_, rfl⟩ <;>
    rcases get_sweat_score_fst kds 10 with h | ⟨x, h⟩ <;> rw [h]
  · norm_num
  · exact ⟨(clip_round1_bounds x).1, (clip_round1_bounds x).2.1⟩
  · exact ⟨10, by norm_num⟩
  · exact (clip_round1_bounds x).2.2

/-- C7: on every non-empty K/D sequence the scorer returns exactly the
spec's decomposition — the median of all values, the mean of the ten
largest values (all of them if fewer than ten), their 0.33/0.67 blend, and
that blend pushed through the piecewise-linear map, rounded and clamped. -/
theorem get_sweat_score_refines_spec (kds : List ℚ) (h : kds ≠ []) :
    get_sweat_score kds 10 =
      (sweat_spec (composite_spec kds), composite_spec kds,
        npMedian kds, top_mean_spec kds) := by
  have hlen : ¬ kds.length = 0 := by simpa using h
  have hmean :
      npMean (if 10 ≤ kds.length then
          (List.insertionSort (· ≤ ·) kds).drop (kds.length - 10) else kds) =
        top_mean_spec kds := by
    unfold top_mean_spec top10_spec
    by_cases hl : kds.length < 10
    · rw [if_neg (by omega), if_pos hl]
    · have hge : 10 ≤ kds.length := by omega
      rw [if_pos hge, if_neg hl, reverse_take_eq_drop_reverse,
        List.length_insertionSort, npMean_reverse]
  have key : ∀ m t : ℚ, kd_to_sweatyness_combo m t =
      (sweat_spec (33/100 * m + 67/100 * t), 33/100 * m + 67/100 * t) :=
    fun m t => rfl
  have step1 : get_sweat_score kds 10 =
      ((kd_to_sweatyness_combo (npMedian kds)
          (npMean (if 10 ≤ kds.length then
            (List.insertionSort (· ≤ ·) kds).drop (kds.length - 10) else kds))).1,
       (kd_to_sweatyness_combo (npMedian kds)
          (npMean (if 10 ≤ kds.length then
            (List.insertionSort (· ≤ ·) kds).drop (kds.length - 10) else kds))).2,
       npMedian kds,
       npMean (if 10 ≤ kds.length then
          (List.insertionSort (· ≤ ·) kds).drop (kds.length - 10) else kds)) := by
    unfold get_sweat_score
    rw [if_neg hlen]
  rw [step1, hmean, key]
  rfl

/-- C7 witness: the refinement at the one-element sequence [1]. -/
theorem get_sweat_score_refines_spec_witness :
    ([(1 : ℚ)] ≠ []) ∧
      get_sweat_score [1] 10 =
        (sweat_spec (composite_spec [1]), composite_spec [1],
          npMedian [1], top_mean_spec [1]) :=
  ⟨by simp, get_sweat_score_refines_spec [1] (by simp)⟩

end NoSBMM
